import Mathlib

/-!
Verification of `src/explainable_ai/metta_service.py` (backend_civicxai).

Shallow embedding conventions:
* Python floats are modelled as rationals (`ℚ`); the module's arithmetic is
  plain +, *, -, min, max on numeric literals, all exact in `ℚ`.
* `round(x, n)` is modelled as decimal rounding `pyRound x n` (round to the
  nearest multiple of `10⁻ⁿ`; the tie-breaking rule is irrelevant to every
  property proved here).
* The external MeTTa engine (`hyperon` import, `metta.run`, float parse) is an
  effectful collaborator; its outcome is an explicit parameter
  `ext : Option ℚ`: `some s` means the external path produced score `s`,
  `none` means it raised or returned an empty result, i.e. the `except`
  branch (or the empty-result branch) runs and the Python fallback computes
  the score.  Both failure branches call `calculate_priority_python`.
* Template strings that interpolate metric values (`generate_explanation`,
  `generate_key_findings`) are modelled as inductive types whose constructors
  carry the interpolated values; each constructor corresponds to exactly one
  distinct template string.  `generate_recommendations` uses only constant
  strings, kept verbatim.
-/

/-- Decimal rounding: `round(x, n)` of Python, modelled over `ℚ`. -/
def pyRound (x : ℚ) (n : ℕ) : ℚ :=
  ((round (x * 10 ^ n) : ℤ) : ℚ) / 10 ^ n

/-- The distinct explanation templates of `generate_explanation`, each
constructor carrying the values interpolated into the corresponding
f-string; `defaultMsg` is the `dict.get` miss default
"Priority calculated based on regional metrics." -/
inductive Explanation where
  | critical (score poverty impact : ℚ)
  | high (score poverty environmental : ℚ)
  | medium (score : ℚ)
  | low (score : ℚ)
  | defaultMsg
  deriving DecidableEq

/-- The distinct key-finding templates of `generate_key_findings`, each
constructor carrying the interpolated metric value. -/
inductive Finding where
  | highPoverty (v : ℚ)
  | highImpact (v : ℚ)
  | severeEnvironment (v : ℚ)
  | elevatedCorruption (v : ℚ)
  | lowCorruption (v : ℚ)
  | balanced
  deriving DecidableEq

/-- The `factors` sub-dict of the result. -/
structure Factors where
  poverty_index : ℚ
  project_impact : ℚ
  environmental_score : ℚ
  corruption_risk : ℚ
  deriving DecidableEq

/-- The result dict of `calculate_priority`. -/
structure PriorityResult where
  priority_score : ℚ
  priority_level : String
  allocation_percentage : ℚ
  confidence_score : ℚ
  explanation : Explanation
  key_findings : List Finding
  recommendations : List String
  factors : Factors
  engine : String
  deriving DecidableEq

/-- `calculate_priority_python` (lines 130-149): the pure fallback formula. -/
def calculate_priority_python (poverty_index project_impact environmental_score corruption_risk : ℚ) : ℚ :=
  poverty_index * 0.4 +
  project_impact * 0.3 +
  environmental_score * 0.2 +
  (1 - corruption_risk) * 0.1

/-- `generate_explanation` (lines 152-171): the `explanations` dict keyed by
priority level, read with `.get(priority_level, default)`. -/
def generate_explanation (priority_score : ℚ) (priority_level : String)
    (poverty_index project_impact environmental_score corruption_risk : ℚ) : Explanation :=
  let explanations : String → Option Explanation := fun key =>
    if key = "critical" then some (Explanation.critical priority_score poverty_index project_impact)
    else if key = "high" then some (Explanation.high priority_score poverty_index environmental_score)
    else if key = "medium" then some (Explanation.medium priority_score)
    else if key = "low" then some (Explanation.low priority_score)
    else none
  (explanations priority_level).getD Explanation.defaultMsg

/-- `generate_key_findings` (lines 174-195): sequential conditional appends,
with the corruption branch an `if / elif`, then the empty-list fallback. -/
def generate_key_findings (poverty_index project_impact environmental_score corruption_risk : ℚ) :
    List Finding :=
  let findings : List Finding :=
    (if poverty_index ≥ 0.7 then [Finding.highPoverty poverty_index] else []) ++
    (if project_impact ≥ 0.7 then [Finding.highImpact project_impact] else []) ++
    (if environmental_score ≥ 0.7 then [Finding.severeEnvironment environmental_score] else []) ++
    (if corruption_risk ≥ 0.6 then [Finding.elevatedCorruption corruption_risk]
     else if corruption_risk ≤ 0.3 then [Finding.lowCorruption corruption_risk]
     else [])
  if findings = [] then [Finding.balanced] else findings

/-- `generate_recommendations` (lines 198-230): allocation-banded pair of
items followed by the metric-triggered items, appended in source order.
`priority_level` is accepted (as in the source signature) but unused. -/
def generate_recommendations (priority_level : String) (allocation_percentage : ℚ)
    (poverty_index project_impact environmental_score corruption_risk : ℚ) : List String :=
  (if allocation_percentage ≥ 70 then
    ["Allocate majority of available funds to this region",
     "Fast-track project approvals and implementation"]
   else if allocation_percentage ≥ 50 then
    ["Provide substantial funding allocation",
     "Implement standard monitoring protocols"]
   else
    ["Provide moderate funding allocation",
     "Monitor for changing conditions"]) ++
  (if poverty_index ≥ 0.7 then
    ["Prioritize poverty alleviation programs",
     "Implement cash transfer or social safety net schemes"] else []) ++
  (if project_impact ≥ 0.7 then
    ["Maximize investment in high-impact projects"] else []) ++
  (if environmental_score ≥ 0.7 then
    ["Include environmental restoration components",
     "Engage local communities in conservation"] else []) ++
  (if corruption_risk ≥ 0.6 then
    ["Establish strong audit and oversight mechanisms",
     "Use transparent digital payment systems"] else [])

/-- The local variable `priority_score` of `calculate_priority`
(lines 27-79): the external MeTTa score when the try-block produced one,
otherwise the Python fallback. -/
def priority_score_of (ext : Option ℚ)
    (poverty_index project_impact environmental_score corruption_risk : ℚ) : ℚ :=
  match ext with
  | some s => s
  | none => calculate_priority_python poverty_index project_impact environmental_score corruption_risk

/-- The local variable `priority_level` of `calculate_priority`
(lines 81-89): the if/elif threshold chain. -/
def priority_level_of (priority_score : ℚ) : String :=
  if priority_score ≥ 0.7 then "critical"
  else if priority_score ≥ 0.5 then "high"
  else if priority_score ≥ 0.3 then "medium"
  else "low"

/-- The local variable `allocation_percentage` of `calculate_priority`
(line 93): `min(100, max(10, priority_score * 100))`. -/
def allocation_percentage_of (priority_score : ℚ) : ℚ :=
  min 100 (max 10 (priority_score * 100))

/-- `calculate_priority` (lines 14-127).  `ext` is the outcome of the
try-block external MeTTa computation: `some s` when `float(str(result[-1][0]))`
succeeds with value `s`; `none` when the try-block raises or `result` is
empty, in which case `calculate_priority_python` computes the score. -/
def calculate_priority (ext : Option ℚ)
    (poverty_index project_impact environmental_score corruption_risk : ℚ) : PriorityResult :=
  let priority_score : ℚ :=
    priority_score_of ext poverty_index project_impact environmental_score corruption_risk
  let priority_level : String := priority_level_of priority_score
  let allocation_percentage : ℚ := allocation_percentage_of priority_score
  ⟨pyRound priority_score 4,
   priority_level,
   pyRound allocation_percentage 2,
   pyRound (0.85 + priority_score * 0.1) 2,
   generate_explanation priority_score priority_level
     poverty_index project_impact environmental_score corruption_risk,
   generate_key_findings poverty_index project_impact environmental_score corruption_risk,
   generate_recommendations priority_level allocation_percentage
     poverty_index project_impact environmental_score corruption_risk,
   ⟨poverty_index * 0.4, project_impact * 0.3,
    environmental_score * 0.2, (1 - corruption_risk) * 0.1⟩,
   "metta_local"⟩

/-- `get_priority_calculation` (lines 234-244): the dict-based adapter.  The
dict is modelled as its lookup function `String → Option ℚ`; `data.get(k, d)`
is `(data k).getD d`.  The `ext` parameter is threaded to the forwarded call
exactly as the real call inherits whatever the external engine does. -/
def get_priority_calculation (ext : Option ℚ) (data : String → Option ℚ) : PriorityResult :=
  calculate_priority ext
    ((data "poverty_index").getD 0.5)
    ((data "project_impact").getD 0.5)
    ((data "environmental_score").getD 0.5)
    ((data "corruption_risk").getD 0.3)

/-! ### Helper lemmas about decimal rounding -/

lemma roundMono {x y : ℚ} (h : x ≤ y) : round x ≤ round y := by
  rw [round_eq, round_eq]
  exact Int.floor_le_floor (by linarith)

lemma pyRound_mono (n : ℕ) {x y : ℚ} (h : x ≤ y) : pyRound x n ≤ pyRound y n := by
  unfold pyRound
  have h10 : (0:ℚ) < 10 ^ n := by positivity
  have h2 : ((round (x * 10 ^ n) : ℤ) : ℚ) ≤ ((round (y * 10 ^ n) : ℤ) : ℚ) := by
    exact_mod_cast roundMono (mul_le_mul_of_nonneg_right h (le_of_lt h10))
  exact (div_le_div_iff_of_pos_right h10).mpr h2

lemma pyRound_eq_self {q : ℚ} (n : ℕ) (m : ℤ) (h : q * 10 ^ n = (m : ℚ)) : pyRound q n = q := by
  unfold pyRound
  rw [h, round_intCast, div_eq_iff (by positivity : ((10:ℚ) ^ n) ≠ 0)]
  exact h.symm

/-! ### Claims -/

/-- Claim C1, counterexample: at inputs (0.8, 0.6, 0.5, 0.2) the `engine`
field is the same string `"metta_local"` whether the external MeTTa path
failed (fallback formula computed the score) or succeeded, so the tag does
not identify which computation path produced the score. -/
theorem C1_counterexample :
    (calculate_priority none 0.8 0.6 0.5 0.2).engine = "metta_local" ∧
    (calculate_priority (some 0.68) 0.8 0.6 0.5 0.2).engine = "metta_local" ∧
    (calculate_priority none 0.8 0.6 0.5 0.2).engine =
      (calculate_priority (some 0.68) 0.8 0.6 0.5 0.2).engine :=
  ⟨rfl, rfl, rfl⟩

/-- Claim C1, amended: the `engine` field of the result of
`calculate_priority` is the constant `"metta_local"` for every input and for
both computation paths; it does not distinguish the external engine from the
Python fallback. -/
theorem C1_engine_constant : ∀ (ext : Option ℚ) (p i e c : ℚ),
    (calculate_priority ext p i e c).engine = "metta_local" :=
  fun _ _ _ _ _ => rfl

/-- Claim C2: for inputs in [0,1], the fallback score is the weighted sum
`p*0.4 + i*0.3 + e*0.2 + (1-c)*0.1`, and when the fallback path computes the
score the returned `priority_score` field is that value rounded to 4 decimal
places and lies in [0,1]. -/
theorem C2_fallback_formula (p i e c : ℚ)
    (hp0 : 0 ≤ p) (hp1 : p ≤ 1) (hi0 : 0 ≤ i) (hi1 : i ≤ 1)
    (he0 : 0 ≤ e) (he1 : e ≤ 1) (hc0 : 0 ≤ c) (hc1 : c ≤ 1) :
    calculate_priority_python p i e c =
      p * 0.4 + i * 0.3 + e * 0.2 + (1 - c) * 0.1 ∧
    (calculate_priority none p i e c).priority_score =
      pyRound (calculate_priority_python p i e c) 4 ∧
    0 ≤ (calculate_priority none p i e c).priority_score ∧
    (calculate_priority none p i e c).priority_score ≤ 1 := by
  have hscore0 : 0 ≤ calculate_priority_python p i e c := by
    unfold calculate_priority_python; linarith
  have hscore1 : calculate_priority_python p i e c ≤ 1 := by
    unfold calculate_priority_python; linarith
  have hfield : (calculate_priority none p i e c).priority_score =
      pyRound (calculate_priority_python p i e c) 4 := rfl
  refine ⟨rfl, rfl, ?_, ?_⟩
  · rw [hfield]
    calc (0:ℚ) = pyRound 0 4 := (pyRound_eq_self 4 0 (by norm_num)).symm
    _ ≤ pyRound (calculate_priority_python p i e c) 4 := pyRound_mono 4 hscore0
  · rw [hfield]
    calc pyRound (calculate_priority_python p i e c) 4
        ≤ pyRound 1 4 := pyRound_mono 4 hscore1
    _ = 1 := pyRound_eq_self 4 10000 (by norm_num)

/-- Witness for C2 at the spec scenario (0.8, 0.6, 0.5, 0.2). -/
theorem C2_fallback_formula_witness :
    calculate_priority_python 0.8 0.6 0.5 0.2 =
      0.8 * 0.4 + 0.6 * 0.3 + 0.5 * 0.2 + (1 - 0.2) * 0.1 ∧
    (calculate_priority none 0.8 0.6 0.5 0.2).priority_score =
      pyRound (calculate_priority_python 0.8 0.6 0.5 0.2) 4 ∧
    0 ≤ (calculate_priority none 0.8 0.6 0.5 0.2).priority_score ∧
    (calculate_priority none 0.8 0.6 0.5 0.2).priority_score ≤ 1 :=
  C2_fallback_formula 0.8 0.6 0.5 0.2 (by norm_num) (by norm_num) (by norm_num)
    (by norm_num) (by norm_num) (by norm_num) (by norm_num) (by norm_num)

/-- Claim C3: tier classification is by closed lower bounds evaluated
high-to-low: `critical` iff score ≥ 0.7, `high` iff 0.5 ≤ score < 0.7,
`medium` iff 0.3 ≤ score < 0.5, `low` iff score < 0.3; the boundary scores
0.7, 0.5, 0.3 classify as critical, high, medium respectively; and the
`priority_level` field of `calculate_priority` is exactly this
classification of the computed score. -/
theorem C3_tier_thresholds : ∀ s : ℚ,
    (priority_level_of s = "critical" ↔ 0.7 ≤ s) ∧
    (priority_level_of s = "high" ↔ 0.5 ≤ s ∧ s < 0.7) ∧
    (priority_level_of s = "medium" ↔ 0.3 ≤ s ∧ s < 0.5) ∧
    (priority_level_of s = "low" ↔ s < 0.3) ∧
    priority_level_of 0.7 = "critical" ∧
    priority_level_of 0.5 = "high" ∧
    priority_level_of 0.3 = "medium" ∧
    ∀ (ext : Option ℚ) (p i e c : ℚ),
      (calculate_priority ext p i e c).priority_level =
        priority_level_of (priority_score_of ext p i e c) := by
  intro s
  refine ⟨?_, ?_, ?_, ?_, by norm_num [priority_level_of],
    by norm_num [priority_level_of], by norm_num [priority_level_of],
    fun ext p i e c => rfl⟩ <;>
  · unfold priority_level_of
    split_ifs with h1 h2 h3 <;> simp_all <;>
      first | linarith | (intro h; linarith)

/-- Claim C4: `calculate_priority` is total over both outcomes of the
external path; when the external path fails (`ext = none`), the result is a
full `PriorityResult` whose score comes from the deterministic fallback
formula, and the whole result coincides with the one the external path
would produce for that same score — no failure is surfaced anywhere in the
result. -/
theorem C4_always_succeeds : ∀ (ext : Option ℚ) (p i e c : ℚ),
    ∃ r : PriorityResult, calculate_priority ext p i e c = r ∧
      (calculate_priority none p i e c).priority_score =
        pyRound (calculate_priority_python p i e c) 4 ∧
      calculate_priority none p i e c =
        calculate_priority (some (calculate_priority_python p i e c)) p i e c :=
  fun ext p i e c => ⟨calculate_priority ext p i e c, rfl, rfl, rfl⟩

/-- Claim C7: the dict adapter substitutes defaults 0.5, 0.5, 0.5, 0.3 for
each missing key and forwards to `calculate_priority`; with an empty dict it
returns exactly `calculate_priority ext 0.5 0.5 0.5 0.3`. -/
theorem C7_adapter_defaults : ∀ (ext : Option ℚ) (data : String → Option ℚ),
    get_priority_calculation ext (fun _ => none) = calculate_priority ext 0.5 0.5 0.5 0.3 ∧
    get_priority_calculation ext data =
      calculate_priority ext
        ((data "poverty_index").getD 0.5)
        ((data "project_impact").getD 0.5)
        ((data "environmental_score").getD 0.5)
        ((data "corruption_risk").getD 0.3) :=
  fun _ _ => ⟨rfl, rfl⟩

/-- Claim C5: the fallback "balanced conditions" finding appears in the
key-findings list iff poverty < 0.7, impact < 0.7, environmental < 0.7 and
corruption lies strictly between 0.3 and 0.6; and when it appears it is the
only finding. -/
theorem C5_balanced_finding : ∀ p i e c : ℚ,
    (Finding.balanced ∈ generate_key_findings p i e c ↔
      p < 0.7 ∧ i < 0.7 ∧ e < 0.7 ∧ 0.3 < c ∧ c < 0.6) ∧
    (Finding.balanced ∈ generate_key_findings p i e c →
      generate_key_findings p i e c = [Finding.balanced]) := by
  intro p i e c
  simp only [generate_key_findings]
  split_ifs <;> simp_all

/-- Claim C6: the recommendations list is the allocation band (exactly two
items, chosen by allocation alone: ≥ 70 aggressive, else ≥ 50 standard, else
conservative) followed by the metric-triggered items in fixed order poverty
(≥ 0.7, two items), impact (≥ 0.7, one item), environmental (≥ 0.7, two
items), corruption (≥ 0.6, two items), with no deduplication; the first two
items are the band and the result is independent of `priority_level`. -/
theorem C6_recommendations_shape : ∀ (lvl : String) (alloc p i e c : ℚ),
    generate_recommendations lvl alloc p i e c =
      (if alloc ≥ 70 then
        ["Allocate majority of available funds to this region",
         "Fast-track project approvals and implementation"]
       else if alloc ≥ 50 then
        ["Provide substantial funding allocation",
         "Implement standard monitoring protocols"]
       else
        ["Provide moderate funding allocation",
         "Monitor for changing conditions"]) ++
      ((if p ≥ 0.7 then
        ["Prioritize poverty alleviation programs",
         "Implement cash transfer or social safety net schemes"] else []) ++
       (if i ≥ 0.7 then
        ["Maximize investment in high-impact projects"] else []) ++
       (if e ≥ 0.7 then
        ["Include environmental restoration components",
         "Engage local communities in conservation"] else []) ++
       (if c ≥ 0.6 then
        ["Establish strong audit and oversight mechanisms",
         "Use transparent digital payment systems"] else [])) ∧
    (if alloc ≥ 70 then
        ["Allocate majority of available funds to this region",
         "Fast-track project approvals and implementation"]
       else if alloc ≥ 50 then
        ["Provide substantial funding allocation",
         "Implement standard monitoring protocols"]
       else
        ["Provide moderate funding allocation",
         "Monitor for changing conditions"]).length = 2 ∧
    (generate_recommendations lvl alloc p i e c).take 2 =
      (if alloc ≥ 70 then
        ["Allocate majority of available funds to this region",
         "Fast-track project approvals and implementation"]
       else if alloc ≥ 50 then
        ["Provide substantial funding allocation",
         "Implement standard monitoring protocols"]
       else
        ["Provide moderate funding allocation",
         "Monitor for changing conditions"]) ∧
    ∀ lvl2 : String, generate_recommendations lvl2 alloc p i e c =
      generate_recommendations lvl alloc p i e c := by
  intro lvl alloc p i e c
  refine ⟨?_, ?_, ?_, fun lvl2 => rfl⟩
  · simp only [generate_recommendations]
    split_ifs <;> simp
  · split_ifs <;> rfl
  · simp only [generate_recommendations]
    split_ifs <;> rfl

/-- Claim C8: the allocation percentage is `min(100, max(10, score*100))`,
hence always in [10, 100] and monotone in the score (also after the
2-decimal rounding applied to the returned field); score 0.05 gives 10 and
score 1 gives 100; and the `allocation_percentage` field is the rounded
clamp of the computed score. -/
theorem C8_allocation_clamp (ext : Option ℚ) (p i e c s t : ℚ) (hst : s ≤ t) :
    (calculate_priority ext p i e c).allocation_percentage =
      pyRound (allocation_percentage_of (priority_score_of ext p i e c)) 2 ∧
    allocation_percentage_of s = min 100 (max 10 (s * 100)) ∧
    10 ≤ allocation_percentage_of s ∧
    allocation_percentage_of s ≤ 100 ∧
    allocation_percentage_of s ≤ allocation_percentage_of t ∧
    10 ≤ pyRound (allocation_percentage_of s) 2 ∧
    pyRound (allocation_percentage_of s) 2 ≤ 100 ∧
    pyRound (allocation_percentage_of s) 2 ≤ pyRound (allocation_percentage_of t) 2 ∧
    allocation_percentage_of 0.05 = 10 ∧
    allocation_percentage_of 1 = 100 := by
  have hlo : ∀ x : ℚ, 10 ≤ allocation_percentage_of x := fun x =>
    le_min (by norm_num) (le_max_left _ _)
  have hhi : ∀ x : ℚ, allocation_percentage_of x ≤ 100 := fun x => min_le_left _ _
  have hmono : allocation_percentage_of s ≤ allocation_percentage_of t := by
    unfold allocation_percentage_of
    exact min_le_min le_rfl (max_le_max le_rfl (mul_le_mul_of_nonneg_right hst (by norm_num)))
  refine ⟨rfl, rfl, hlo s, hhi s, hmono, ?_, ?_, pyRound_mono 2 hmono, ?_, ?_⟩
  · calc (10:ℚ) = pyRound 10 2 := (pyRound_eq_self 2 1000 (by norm_num)).symm
    _ ≤ pyRound (allocation_percentage_of s) 2 := pyRound_mono 2 (hlo s)
  · calc pyRound (allocation_percentage_of s) 2
        ≤ pyRound 100 2 := pyRound_mono 2 (hhi s)
    _ = 100 := pyRound_eq_self 2 10000 (by norm_num)
  · unfold allocation_percentage_of
    norm_num [min_def, max_def]
  · unfold allocation_percentage_of
    norm_num [min_def, max_def]

/-- Witness for C8 at ext failure, inputs 0.5 each, scores s = 0.05 and
t = 1. -/
theorem C8_allocation_clamp_witness :
    (calculate_priority none 0.5 0.5 0.5 0.5).allocation_percentage =
      pyRound (allocation_percentage_of (priority_score_of none 0.5 0.5 0.5 0.5)) 2 ∧
    allocation_percentage_of 0.05 = min 100 (max 10 (0.05 * 100)) ∧
    10 ≤ allocation_percentage_of 0.05 ∧
    allocation_percentage_of 0.05 ≤ 100 ∧
    allocation_percentage_of 0.05 ≤ allocation_percentage_of 1 ∧
    10 ≤ pyRound (allocation_percentage_of 0.05) 2 ∧
    pyRound (allocation_percentage_of 0.05) 2 ≤ 100 ∧
    pyRound (allocation_percentage_of 0.05) 2 ≤ pyRound (allocation_percentage_of 1) 2 ∧
    allocation_percentage_of 0.05 = 10 ∧
    allocation_percentage_of 1 = 100 :=
  C8_allocation_clamp none 0.5 0.5 0.5 0.5 0.05 1 (by norm_num)

/-- Claim C9: the `confidence_score` field is `0.85 + 0.1 * score` rounded to
2 decimal places; for scores in [0,1] it lies in [0.85, 0.95], with score 0
giving 0.85 and score 1 giving 0.95. -/
theorem C9_confidence_affine (ext : Option ℚ) (p i e c s : ℚ)
    (h0 : 0 ≤ s) (h1 : s ≤ 1) :
    (calculate_priority ext p i e c).confidence_score =
      pyRound (0.85 + priority_score_of ext p i e c * 0.1) 2 ∧
    0.85 ≤ pyRound (0.85 + s * 0.1) 2 ∧
    pyRound (0.85 + s * 0.1) 2 ≤ 0.95 ∧
    pyRound (0.85 + (0:ℚ) * 0.1) 2 = 0.85 ∧
    pyRound (0.85 + (1:ℚ) * 0.1) 2 = 0.95 := by
  refine ⟨rfl, ?_, ?_, ?_, ?_⟩
  · calc (0.85:ℚ) = pyRound 0.85 2 := (pyRound_eq_self 2 85 (by norm_num)).symm
    _ ≤ pyRound (0.85 + s * 0.1) 2 := pyRound_mono 2 (by linarith)
  · calc pyRound (0.85 + s * 0.1) 2
        ≤ pyRound 0.95 2 := pyRound_mono 2 (by linarith)
    _ = 0.95 := pyRound_eq_self 2 95 (by norm_num)
  · rw [show (0.85 + (0:ℚ) * 0.1) = 0.85 by norm_num]
    exact pyRound_eq_self 2 85 (by norm_num)
  · rw [show (0.85 + (1:ℚ) * 0.1) = 0.95 by norm_num]
    exact pyRound_eq_self 2 95 (by norm_num)

/-- Witness for C9 at the spec scenario: external score 0.68 on inputs
(0.8, 0.6, 0.5, 0.2), bound checked at s = 0.68. -/
theorem C9_confidence_affine_witness :
    (calculate_priority (some 0.68) 0.8 0.6 0.5 0.2).confidence_score =
      pyRound (0.85 + priority_score_of (some 0.68) 0.8 0.6 0.5 0.2 * 0.1) 2 ∧
    0.85 ≤ pyRound (0.85 + (0.68:ℚ) * 0.1) 2 ∧
    pyRound (0.85 + (0.68:ℚ) * 0.1) 2 ≤ 0.95 ∧
    pyRound (0.85 + (0:ℚ) * 0.1) 2 = 0.85 ∧
    pyRound (0.85 + (1:ℚ) * 0.1) 2 = 0.95 :=
  C9_confidence_affine (some 0.68) 0.8 0.6 0.5 0.2 0.68 (by norm_num) (by norm_num)

/-- Claim C10: the explanation returned by `calculate_priority` is always one
of the four tier-keyed templates, applied to the computed score and metric
values; the dictionary-miss default is unreachable because the tier
classification only produces the four keyed labels. -/
theorem C10_no_default_explanation : ∀ (ext : Option ℚ) (p i e c : ℚ),
    (calculate_priority ext p i e c).explanation ≠ Explanation.defaultMsg ∧
    ((calculate_priority ext p i e c).explanation =
        Explanation.critical (priority_score_of ext p i e c) p i ∨
     (calculate_priority ext p i e c).explanation =
        Explanation.high (priority_score_of ext p i e c) p e ∨
     (calculate_priority ext p i e c).explanation =
        Explanation.medium (priority_score_of ext p i e c) ∨
     (calculate_priority ext p i e c).explanation =
        Explanation.low (priority_score_of ext p i e c)) := by
  intro ext p i e c
  simp only [calculate_priority, generate_explanation, priority_level_of]
  split_ifs <;> simp_all
